import Mathlib

/-
Verification of the RAG chat application in `app.py` (gaipal).

The development shallowly embeds the pieces of `app.py` that the claims
concern: the prompt template and its variable substitution, the
`format_docs` joiner, the per-request `PostMessageHandler` callback state
(citation accumulation and emission), the `on_message` streaming loop as a
trace of observable actions, the startup sequence (ingestion, build-or-load
of the Chroma vector store, LlamaCpp construction), the retriever, and the
password auth callback.  External collaborators (Chroma similarity search,
the PDF loader) are modelled only where a claim needs them, as noted on the
definition.
-/

set_option autoImplicit false

namespace Gaipal

/-- A LangChain document as this application uses it: `page_content` text
plus the `source` and `page` metadata keys read by `PostMessageHandler`. -/
structure Document where
  page_content : String
  source : String
  page : Nat
deriving DecidableEq, Repr

/-- From `on_chat_start`: `format_docs` joins the retrieved chunks with
blank-line (two newline) separators, in the order the retriever returned
them. -/
def format_docs (docs : List Document) : String :=
  String.intercalate "\n\n" (docs.map Document.page_content)

/-- The prompt template string assigned to `template` in `on_chat_start`
(a Python triple-quoted literal; the inner quote characters and newline
escapes are literal text of the template). -/
def templateText : String :=
  "\n            \"system\n\"\n            \"You are an AI assistant for Generative AI Policy Insights, developed by the Boston University\x27s GenAI Task Force. Your main mission is to help users understand how different organizations perceive and make policies regarding the use of GenAI. Answer the user\x27s question using the provided context that is relevant. The context is ordered by relevance. \"\n            \"If you don\x27t know the answer, do your best without making things up. If you cannot answer, just say you don\x27t have enough relevant information to answer the questions. Keep the conversation flowing naturally. \"\n            \"Always cite the source of the information. Use the source context that is most relevant. \"\n            \"Keep the answer concise, yet professional and informative. Avoid sounding repetitive or robotic.\n\"\n            \"\n\n\"\n            \"user\n\"\n            \"Context:\n{context}\n\n\"\n            \"Question: {input}\n\"\n            \"\n\n\"\n            \"assistant\"\n    "

/-- The input variables `ChatPromptTemplate.from_template` extracts from
`templateText`: the placeholders that occur in it are `{context}` and
`{input}`. -/
def templateInputVariables : List String := ["context", "input"]

/-- Substitution of template variables: each placeholder is replaced by the
provided value (the f-string formatting step of prompt rendering). -/
def substituteVars (tmpl : String) (vals : List (String × String)) : String :=
  vals.foldl (fun acc kv => acc.replace ("\x7b" ++ kv.1 ++ "\x7d") kv.2) tmpl

/-- Rendering a LangChain prompt template: if any of the template input
variables is missing from the provided mapping, invocation raises a
missing-variables error naming them; otherwise it substitutes the values. -/
def renderPrompt (provided : List (String × String)) : Except String String :=
  match templateInputVariables.filter (fun v => ¬ (provided.map Prod.fst).contains v) with
  | [] => Except.ok (substituteVars templateText provided)
  | missing => Except.error (String.intercalate ", " missing)

/-- The mapping the chain `{"context": retriever | format_docs, "question":
RunnablePassthrough()}` produces for a request whose question is `q` and
whose retrieval result is `docs`. -/
def chainInput (q : String) (docs : List Document) : List (String × String) :=
  [("context", format_docs docs), ("question", q)]

/-- Prompt assembly for one request: the chain output piped into the prompt
template. -/
def renderRequestPrompt (q : String) (docs : List Document) : Except String String :=
  renderPrompt (chainInput q docs)

/-- A Chainlit `cl.Text` element as built by `on_llm_end`. -/
structure TextElement where
  name : String
  content : String
deriving DecidableEq, Repr

/-- The Chainlit message `on_message` builds: streamed content plus the
elements attached to it (the citation block, when present). -/
structure Message where
  content : String
  elements : List TextElement
deriving DecidableEq, Repr

/-- Python set insertion on the insertion-ordered list representing
`self.sources`: adding an already-present pair is a no-op. -/
def addSource (l : List (String × Nat)) (p : String × Nat) : List (String × Nat) :=
  if p ∈ l then l else l ++ [p]

/-- The callback handler state `PostMessageHandler` keeps per request:
`self.sources`, the set of unique `(source, page)` pairs, represented as an
insertion-ordered duplicate-free list. -/
structure PostMessageHandler where
  sources : List (String × Nat)
deriving DecidableEq, Repr

/-- The handler constructor: `self.sources = set()` starts empty. -/
def PostMessageHandler.init : PostMessageHandler := ⟨[]⟩

/-- From `PostMessageHandler.on_retriever_end`: every returned document
contributes its `(source, page)` metadata pair to the set. -/
def on_retriever_end (h : PostMessageHandler) (documents : List Document) :
    PostMessageHandler :=
  ⟨documents.foldl (fun s d => addSource s (d.source, d.page)) h.sources⟩

/-- The `(source, page)` metadata pairs of a retrieval result, in order and
with duplicates kept. -/
def docPairs (docs : List Document) : List (String × Nat) :=
  docs.map (fun d => (d.source, d.page))

/-- The citation set accumulated by a request whose retrieval returned
`docs`: the handler starts from `init` and observes one retriever-end
event. -/
def requestSources (docs : List Document) : List (String × Nat) :=
  (on_retriever_end PostMessageHandler.init docs).sources

/-- From `on_llm_end`: the citation text is the `source#page=N` lines joined
by newlines, one per pair iterated from the set. -/
def sourcesText (sources : List (String × Nat)) : String :=
  String.intercalate "\n" (sources.map (fun sp => sp.1 ++ "#page=" ++ toString sp.2))

/-- From `PostMessageHandler.on_llm_end`: when the source set is non-empty,
a single `Sources` text element holding the citation lines is appended to
the message elements; when it is empty, nothing is attached. -/
def on_llm_end (h : PostMessageHandler) (msg : Message) : Message :=
  if h.sources.length ≠ 0 then
    { msg with elements := msg.elements ++ [⟨"Sources", sourcesText h.sources⟩] }
  else
    msg

/-- One item produced while iterating `runnable.astream(...)`: either a text
chunk or an exception raised mid-stream (a retrieval or generation
failure surfacing through the iterator). -/
inductive StreamItem where
  | chunk (s : String)
  | failure (e : String)
deriving DecidableEq, Repr

/-- An observable action of the `on_message` handler: a chunk arriving from
the stream, the immediate `msg.stream_token(chunk)` forwarding it, and the
final `msg.send()` delivering the message with its attached elements. -/
inductive Action where
  | arrive (fragment : String)
  | forward (fragment : String)
  | send (msg : Message)
deriving DecidableEq, Repr

/-- Whether an action is the final `msg.send()`. -/
def Action.isSend : Action → Bool
  | Action.send _ => true
  | _ => false

/-- Result of running the body of `on_message`: the actions it performed, and
the exception that escaped it, if any (the function has no try/except). -/
structure RunResult where
  actions : List Action
  escaped : Option String
deriving DecidableEq, Repr

/-- The `async for chunk in runnable.astream(...)` loop: each arriving chunk
is forwarded at once via `stream_token` (appending it to the message
content); on stream exhaustion `on_llm_end` has fired and `msg.send()`
delivers the message; an exception mid-stream aborts the loop and escapes
`on_message`, so `msg.send()` never runs. -/
def streamLoop (h : PostMessageHandler) (content : String) :
    List StreamItem → RunResult
  | [] => ⟨[Action.send (on_llm_end h ⟨content, []⟩)], none⟩
  | StreamItem.chunk s :: rest =>
      let r := streamLoop h (content ++ s) rest
      ⟨Action.arrive s :: Action.forward s :: r.actions, r.escaped⟩
  | StreamItem.failure e :: _ => ⟨[], some e⟩

/-- One run of `on_message`: a fresh `PostMessageHandler` (empty source set)
observes the retrieval result `docs`, then the stream items are consumed by
the loop. -/
def on_message_run (docs : List Document) (items : List StreamItem) : RunResult :=
  streamLoop (on_retriever_end PostMessageHandler.init docs) "" items

/-- The arrive/forward action interleaving produced by a fully successful
stream of fragments. -/
def interleaved : List String → List Action
  | [] => []
  | s :: rest => Action.arrive s :: Action.forward s :: interleaved rest

/-- A Chainlit user as constructed by `auth_callback` on success. -/
structure User where
  identifier : String
  role : String
  provider : String
deriving DecidableEq, Repr

/-- The user returned by `auth_callback` for the hardcoded credentials. -/
def adminUser : User :=
  { identifier := "admin", role := "admin", provider := "credentials" }

/-- From the bottom of `app.py`: the password auth callback compares the
`(username, password)` pair against the literal `("admin", "admin")`. -/
def auth_callback (username password : String) : Option User :=
  if (username, password) = ("admin", "admin") then
    some adminUser
  else
    none

/-- The index file whose existence the startup code probes:
`os.path.exists("data/vectorstore/chroma.sqlite3")`. -/
def chromaFile : String := "data/vectorstore/chroma.sqlite3"

/-- The persistence directory passed to Chroma in both startup branches. -/
def persistDir : String := "data/vectorstore"

/-- Outcome of the vector store startup branch: loaded from the persisted
directory (consuming no chunks, re-embedding nothing) or built from the
ingested chunks and persisted at the same directory. -/
inductive VectorstoreInit where
  | load (persist_directory : String)
  | build (documents : List Document) (persist_directory : String)
deriving DecidableEq, Repr

/-- The module-level build-or-load decision of `app.py`: the caller (this
startup code, not the index) checks for the Chroma index file, loads when
it is present, and otherwise builds from `all_splits`. -/
def vectorstoreInit (pathExists : String → Bool) (all_splits : List Document) :
    VectorstoreInit :=
  if pathExists chromaFile then
    VectorstoreInit.load persistDir
  else
    VectorstoreInit.build all_splits persistDir

/-- Modelled from the spec: the `llama_cpp` section of the YAML
configuration (the configuration file and the constants module are not
under src/), carrying the engine options the recognized configuration
surface names: model path/identifier, context window size, temperature,
thread count, batch size. -/
structure LlamaConfig where
  model_path : String
  n_ctx : Nat
  temperature : ℚ
  n_threads : Nat
  n_batch : Nat
deriving DecidableEq, Repr

/-- The parameters of the constructed `LlamaCpp` generation engine. -/
structure LlamaParams where
  model_path : String
  n_batch : Nat
  n_ctx : Nat
  f16_kv : Bool
  verbose : Bool
  n_threads : Nat
  temperature : ℚ
deriving DecidableEq, Repr

/-- From the module-level `model = LlamaCpp(...)` call: every parameter is
a hardcoded literal; the `llama_config` section loaded from the YAML file
is not consulted. -/
def mkModel (llama_config : LlamaConfig) : LlamaParams :=
  { model_path := "C:/Users/pnhua/Downloads/tinyllama-1.1b-chat-v1.0.Q4_K_S.gguf"
    n_batch := 512
    n_ctx := 2048
    f16_kv := true
    verbose := true
    n_threads := 2
    temperature := 7 / 10 }

/-- Modelled from the spec: engine construction as claim C8 states it, each
recognized parameter taken from the startup configuration section. -/
def mkModel_spec (c : LlamaConfig) : LlamaParams :=
  { model_path := c.model_path
    n_batch := c.n_batch
    n_ctx := c.n_ctx
    f16_kv := true
    verbose := true
    n_threads := c.n_threads
    temperature := c.temperature }

/-- A concrete configuration whose values differ from the hardcoded engine
literals. -/
def exampleConfig : LlamaConfig :=
  { model_path := "/models/other.gguf"
    n_ctx := 4096
    temperature := 1 / 2
    n_threads := 8
    n_batch := 64 }

/-- An observable step of the module-level startup sequence. -/
inductive StartupAction where
  | ingest (dir : String)
  | existsCheck (path : String)
  | loadIndex (dir : String)
  | buildIndex (documents : List Document) (dir : String)
  | constructEngine (params : LlamaParams)
deriving DecidableEq, Repr

/-- Whether a startup action is the engine construction. -/
def StartupAction.isConstructEngine : StartupAction → Bool
  | StartupAction.constructEngine _ => true
  | _ => false

/-- The ordered module-level startup sequence of `app.py`:
`all_splits = process_pdf(chatbot_dir)` runs unconditionally, then the
index-file existence check selects load or build (only the build branch
consumes `all_splits`), then the LlamaCpp engine is constructed once.
`process_pdf` lives in `modules/data_loader` (not under src/), so it is
abstracted as a function from the directory to the chunk list, and
`chatbot_dir` comes from the constants module, so it is a parameter. -/
def startupTrace (pathExists : String → Bool)
    (process_pdf : String → List Document) (chatbot_dir : String)
    (llama_config : LlamaConfig) : List StartupAction :=
  [StartupAction.ingest chatbot_dir, StartupAction.existsCheck chromaFile] ++
    (if pathExists chromaFile then [StartupAction.loadIndex persistDir]
     else [StartupAction.buildIndex (process_pdf chatbot_dir) persistDir]) ++
    [StartupAction.constructEngine (mkModel llama_config)]

/-- Modelled from the spec: `VectorIndex.search` returns the `k` entries
most similar to the query, i.e. the similarity-ranked index truncated to
`k` (the actual store is Chroma, an external dependency not under src/);
`ranked` is the index ranking for the given query embedding. -/
def search (ranked : List Document) (k : Nat) : List Document :=
  List.take k ranked

/-- The fixed `k` configured on the retriever in `app.py`:
`search_kwargs` set to `k: 3`. -/
def retriever_k : Nat := 3

/-- From `vectorstore.as_retriever(...)`: the retriever embeds the query
text and performs the similarity search with the fixed configured `k`
(embedding model and index ranking abstracted as functions). -/
def retrieve (embed : String → List ℚ) (ranked : List ℚ → List Document)
    (query_text : String) : List Document :=
  search (ranked (embed query_text)) retriever_k

theorem mem_addSource (l : List (String × Nat)) (p q : String × Nat) :
    q ∈ addSource l p ↔ q ∈ l ∨ q = p := by
  unfold addSource
  split
  · rename_i hp
    constructor
    · exact Or.inl
    · rintro (h | rfl)
      · exact h
      · exact hp
  · simp

theorem nodup_addSource (l : List (String × Nat)) (p : String × Nat)
    (hl : l.Nodup) : (addSource l p).Nodup := by
  unfold addSource
  split
  · exact hl
  · rename_i hp
    simp [List.nodup_append, hl, hp]

theorem mem_foldl_addSource (docs : List Document) :
    ∀ (l : List (String × Nat)) (q : String × Nat),
      q ∈ docs.foldl (fun s d => addSource s (d.source, d.page)) l ↔
        q ∈ l ∨ q ∈ docPairs docs := by
  induction docs with
  | nil =>
      intro l q
      simp [docPairs]
  | cons d rest ih =>
      intro l q
      rw [List.foldl_cons, ih, mem_addSource]
      simp [docPairs]
      tauto

theorem nodup_foldl_addSource (docs : List Document) :
    ∀ l : List (String × Nat), l.Nodup →
      (docs.foldl (fun s d => addSource s (d.source, d.page)) l).Nodup := by
  induction docs with
  | nil =>
      intro l hl
      exact hl
  | cons d rest ih =>
      intro l hl
      rw [List.foldl_cons]
      exact ih _ (nodup_addSource _ _ hl)

theorem requestSources_mem (docs : List Document) (q : String × Nat) :
    q ∈ requestSources docs ↔ q ∈ docPairs docs := by
  rw [requestSources, on_retriever_end]
  simpa using mem_foldl_addSource docs [] q

theorem requestSources_nodup (docs : List Document) :
    (requestSources docs).Nodup :=
  nodup_foldl_addSource docs [] List.nodup_nil

theorem interleaved_filter_isSend (fragments : List String) :
    (interleaved fragments).filter Action.isSend = [] := by
  induction fragments with
  | nil => rfl
  | cons f rest ih => simp [interleaved, Action.isSend, ih]

theorem interleaved_arrive_forward (fragments : List String) (m : Message) :
    ∀ i s, (interleaved fragments ++ [Action.send m])[i]? = some (Action.arrive s) →
      (interleaved fragments ++ [Action.send m])[i + 1]? = some (Action.forward s) := by
  induction fragments with
  | nil =>
      intro i s h
      cases i with
      | zero => simp [interleaved] at h
      | succ n => simp [interleaved] at h
  | cons f rest ih =>
      intro i s h
      match i with
      | 0 =>
          simp [interleaved] at h ⊢
          exact h
      | 1 =>
          simp [interleaved] at h
      | n + 2 =>
          simp only [interleaved, List.cons_append, List.getElem?_cons_succ] at h ⊢
          exact ih n s h

theorem interleaved_forward_position (fragments : List String) (m : Message) :
    ∀ j s, (interleaved fragments ++ [Action.send m])[j]? = some (Action.forward s) →
      j < 2 * fragments.length := by
  induction fragments with
  | nil =>
      intro j s h
      cases j with
      | zero => simp [interleaved] at h
      | succ n => simp [interleaved] at h
  | cons f rest ih =>
      intro j s h
      match j with
      | 0 => simp [interleaved] at h
      | 1 =>
          simp
          omega
      | n + 2 =>
          simp only [interleaved, List.cons_append, List.getElem?_cons_succ] at h
          have := ih n s h
          simp
          omega

theorem interleaved_send_position (fragments : List String) (m : Message) :
    ∀ i m', (interleaved fragments ++ [Action.send m])[i]? = some (Action.send m') →
      i = 2 * fragments.length := by
  induction fragments with
  | nil =>
      intro i m' h
      cases i with
      | zero => simp [interleaved]
      | succ n => simp [interleaved] at h
  | cons f rest ih =>
      intro i m' h
      match i with
      | 0 => simp [interleaved] at h
      | 1 => simp [interleaved] at h
      | n + 2 =>
          simp only [interleaved, List.cons_append, List.getElem?_cons_succ] at h
          have := ih n m' h
          simp
          omega

theorem streamLoop_chunks (fragments : List String) :
    ∀ (h : PostMessageHandler) (c : String),
      ∃ content,
        streamLoop h c (fragments.map StreamItem.chunk) =
          ⟨interleaved fragments ++ [Action.send (on_llm_end h ⟨content, []⟩)],
            none⟩ := by
  induction fragments with
  | nil =>
      intro h c
      exact ⟨c, rfl⟩
  | cons f rest ih =>
      intro h c
      obtain ⟨ct, hct⟩ := ih h (c ++ f)
      refine ⟨ct, ?_⟩
      simp [streamLoop, interleaved, hct]

theorem streamLoop_failure (pre : List String) :
    ∀ (h : PostMessageHandler) (c e : String) (rest : List StreamItem),
      streamLoop h c (pre.map StreamItem.chunk ++ StreamItem.failure e :: rest) =
        ⟨interleaved pre, some e⟩ := by
  induction pre with
  | nil =>
      intro h c e rest
      rfl
  | cons f p ih =>
      intro h c e rest
      simp [streamLoop, interleaved, ih]

theorem send_mem_streamLoop (items : List StreamItem) :
    ∀ (h : PostMessageHandler) (c : String) (m : Message),
      Action.send m ∈ (streamLoop h c items).actions →
      ∃ content, m = on_llm_end h ⟨content, []⟩ := by
  induction items with
  | nil =>
      intro h c m hm
      simp [streamLoop] at hm
      exact ⟨c, hm⟩
  | cons it rest ih =>
      intro h c m hm
      cases it with
      | chunk s =>
          simp [streamLoop] at hm
          exact ih h (c ++ s) m hm
      | failure e =>
          simp [streamLoop] at hm

theorem on_llm_end_elements (h : PostMessageHandler) (c : String) :
    (on_llm_end h ⟨c, []⟩).elements =
      if h.sources = [] then [] else [⟨"Sources", sourcesText h.sources⟩] := by
  unfold on_llm_end
  by_cases hs : h.sources = []
  · simp [hs]
  · simp [hs, List.length_eq_zero]

/-- Claim C2 (code bug): prompt rendering for a request always fails with a
missing-variables error naming `input`, because the template placeholder is
`{input}` while the chain supplies the key `question`; the question is never
substituted into a prompt. -/
theorem renderRequestPrompt_missing_input (q : String) (docs : List Document) :
    renderRequestPrompt q docs = Except.error "input" := rfl

/-- Claim C9: `auth_callback` returns the admin user exactly when the pair
is `("admin", "admin")`, and its only other possible result is `none`
(authentication refused). -/
theorem auth_callback_admin_iff (u p : String) :
    (auth_callback u p = some adminUser ↔ u = "admin" ∧ p = "admin") ∧
    (auth_callback u p = none ∨ auth_callback u p = some adminUser) := by
  constructor
  · unfold auth_callback
    by_cases h : (u, p) = ("admin", "admin")
    · simp [h]
      exact Prod.mk.injEq u p "admin" "admin" ▸ h
    · simp [h]
      intro hu hp
      exact h (by rw [hu, hp])
  · unfold auth_callback
    by_cases h : (u, p) = ("admin", "admin")
    · right
      simp [h]
    · left
      simp [h]

/-- Claim C1: for a request whose stream completes, the actions of
`on_message` end with exactly one `msg.send()`, whose message carries the
citation element exactly when the accumulated source set is non-empty; the
element holds one `source#page=N` line per pair of the duplicate-free
source set, which contains exactly the `(source, page)` pairs of the
retrieved documents. -/
theorem citation_block_emitted_once (docs : List Document) (fragments : List String) :
    ∃ m : Message,
      (on_message_run docs (fragments.map StreamItem.chunk)).actions.getLast? =
          some (Action.send m) ∧
      (on_message_run docs (fragments.map StreamItem.chunk)).actions.filter
          Action.isSend = [Action.send m] ∧
      m.elements = (if requestSources docs = [] then []
          else [⟨"Sources", sourcesText (requestSources docs)⟩]) ∧
      (requestSources docs).Nodup ∧
      (∀ p, p ∈ requestSources docs ↔ p ∈ docPairs docs) := by
  obtain ⟨ct, hct⟩ :=
    streamLoop_chunks fragments (on_retriever_end PostMessageHandler.init docs) ""
  refine ⟨on_llm_end (on_retriever_end PostMessageHandler.init docs) ⟨ct, []⟩,
    ?_, ?_, ?_, requestSources_nodup docs, requestSources_mem docs⟩
  · simp [on_message_run, hct]
  · simp [on_message_run, hct, List.filter_append, interleaved_filter_isSend,
      Action.isSend]
  · exact on_llm_end_elements _ ct

/-- Claim C4: the citation set starts empty at request start, contains only
pairs contributed by documents retrieved during the same request, and any
citation element carried by the sent message of a run is exactly the
rendering of that request's own source set. -/
theorem citation_set_request_scoped (docs : List Document) (items : List StreamItem) :
    PostMessageHandler.init.sources = [] ∧
    (∀ p, p ∈ requestSources docs → p ∈ docPairs docs) ∧
    (∀ m, Action.send m ∈ (on_message_run docs items).actions →
      ∀ e, e ∈ m.elements →
        e = ⟨"Sources", sourcesText (requestSources docs)⟩) := by
  refine ⟨rfl, fun p hp => (requestSources_mem docs p).1 hp, ?_⟩
  intro m hm e he
  obtain ⟨c, rfl⟩ := send_mem_streamLoop items _ "" m hm
  rw [on_llm_end_elements] at he
  split at he
  · simp at he
  · simpa using he

/-- Claim C4 witness at a concrete request: one retrieved document from
`a.pdf` page 1 and a one-chunk stream. -/
theorem citation_set_request_scoped_witness :
    ("a.pdf", 1) ∈ docPairs [⟨"t", "a.pdf", 1⟩] ∧
    (⟨"Sources", "a.pdf#page=1"⟩ : TextElement) =
      ⟨"Sources", sourcesText (requestSources [⟨"t", "a.pdf", 1⟩])⟩ := by
  refine ⟨?_, ?_⟩
  · exact (citation_set_request_scoped [⟨"t", "a.pdf", 1⟩]
      [StreamItem.chunk "x"]).2.1 ("a.pdf", 1) (by decide)
  · exact (citation_set_request_scoped [⟨"t", "a.pdf", 1⟩]
      [StreamItem.chunk "x"]).2.2 ⟨"x", [⟨"Sources", "a.pdf#page=1"⟩]⟩
      (by decide) ⟨"Sources", "a.pdf#page=1"⟩ (by decide)

/-- Claim C6: in a completed run, every arriving fragment is forwarded by
the very next action, every forwarded fragment sits strictly before
position `2 * n`, and the `msg.send()` that delivers the message (with the
citation element, when present) sits exactly at position `2 * n`: streaming
is immediate and the citation block follows all fragments. -/
theorem fragments_streamed_before_citation (docs : List Document)
    (fragments : List String) :
    (∀ i s, (on_message_run docs (fragments.map StreamItem.chunk)).actions[i]? =
        some (Action.arrive s) →
      (on_message_run docs (fragments.map StreamItem.chunk)).actions[i + 1]? =
        some (Action.forward s)) ∧
    (∀ j s, (on_message_run docs (fragments.map StreamItem.chunk)).actions[j]? =
        some (Action.forward s) → j < 2 * fragments.length) ∧
    (∀ i m, (on_message_run docs (fragments.map StreamItem.chunk)).actions[i]? =
        some (Action.send m) → i = 2 * fragments.length) := by
  obtain ⟨ct, hct⟩ :=
    streamLoop_chunks fragments (on_retriever_end PostMessageHandler.init docs) ""
  have ha : (on_message_run docs (fragments.map StreamItem.chunk)).actions =
      interleaved fragments ++
        [Action.send (on_llm_end (on_retriever_end PostMessageHandler.init docs)
          ⟨ct, []⟩)] := by
    simp [on_message_run, hct]
  rw [ha]
  exact ⟨interleaved_arrive_forward fragments _,
    interleaved_forward_position fragments _,
    interleaved_send_position fragments _⟩

/-- Claim C6 witness on a concrete one-fragment run with no retrieved
documents. -/
theorem fragments_streamed_before_citation_witness :
    (on_message_run [] [StreamItem.chunk "a"]).actions[0 + 1]? =
        some (Action.forward "a") ∧
    (1 : Nat) < 2 * ["a"].length ∧
    (2 : Nat) = 2 * ["a"].length := by
  refine ⟨?_, ?_, ?_⟩
  · exact (fragments_streamed_before_citation [] ["a"]).1 0 "a" (by decide)
  · exact (fragments_streamed_before_citation [] ["a"]).2.1 1 "a" (by decide)
  · exact (fragments_streamed_before_citation [] ["a"]).2.2 2 ⟨"a", []⟩ (by decide)

/-- Claim C7 counterexample: `on_message` has no try/except, so an error
raised while iterating the stream escapes the handler unhandled instead of
being caught, and no terminal message is sent: at the concrete input
below, the escaped exception is `RetrievalError` and no send action was
performed. -/
theorem on_message_error_escapes_uncaught :
    (on_message_run [] [StreamItem.failure "RetrievalError"]).escaped =
        some "RetrievalError" ∧
    (on_message_run [] [StreamItem.failure "RetrievalError"]).actions.filter
        Action.isSend = [] := by
  decide

/-- Claim C7 amended: per-request errors are not caught in `on_message`; an
exception raised mid-stream escapes the handler, the already-forwarded
fragments are preserved, and no `msg.send()` (hence no failure message
distinct from normal output) is performed by this code. -/
theorem on_message_error_unhandled (docs : List Document) (pre : List String)
    (e : String) (rest : List StreamItem) :
    (on_message_run docs
        (pre.map StreamItem.chunk ++ StreamItem.failure e :: rest)).escaped =
      some e ∧
    (on_message_run docs
        (pre.map StreamItem.chunk ++ StreamItem.failure e :: rest)).actions =
      interleaved pre ∧
    (interleaved pre).filter Action.isSend = [] := by
  refine ⟨?_, ?_, interleaved_filter_isSend pre⟩ <;>
    simp [on_message_run, streamLoop_failure]

/-- Claim C3: at startup the persisted index is loaded exactly when the
index file exists at the configured location, and otherwise the index is
built from the ingested chunks and persisted at that location; the
existence probe is made by this startup code. -/
theorem vectorstore_build_or_load (pathExists : String → Bool)
    (all_splits : List Document) :
    (vectorstoreInit pathExists all_splits = VectorstoreInit.load persistDir ↔
      pathExists chromaFile = true) ∧
    (vectorstoreInit pathExists all_splits =
        VectorstoreInit.build all_splits persistDir ↔
      pathExists chromaFile = false) := by
  unfold vectorstoreInit
  by_cases h : pathExists chromaFile <;> simp [h]

/-- Claim C10: ingestion runs unconditionally as the first startup step,
before the index-file existence check, and when the persisted index exists
the startup trace is exactly ingest, check, load, construct-engine — the
freshly ingested chunks are consumed by no action. -/
theorem ingestion_unconditional_before_check (pathExists : String → Bool)
    (process_pdf : String → List Document) (chatbot_dir : String)
    (llama_config : LlamaConfig) :
    (startupTrace pathExists process_pdf chatbot_dir llama_config)[0]? =
        some (StartupAction.ingest chatbot_dir) ∧
    (startupTrace pathExists process_pdf chatbot_dir llama_config)[1]? =
        some (StartupAction.existsCheck chromaFile) ∧
    (pathExists chromaFile = true →
      startupTrace pathExists process_pdf chatbot_dir llama_config =
        [StartupAction.ingest chatbot_dir,
         StartupAction.existsCheck chromaFile,
         StartupAction.loadIndex persistDir,
         StartupAction.constructEngine (mkModel llama_config)]) := by
  refine ⟨?_, ?_, ?_⟩
  · by_cases h : pathExists chromaFile <;> simp [startupTrace, h]
  · by_cases h : pathExists chromaFile <;> simp [startupTrace, h]
  · intro h
    simp [startupTrace, h]

/-- Claim C10 witness: with the index file present, the startup trace is
exactly the four load-branch actions. -/
theorem ingestion_unconditional_before_check_witness :
    startupTrace (fun _ => true) (fun _ => []) "docs"
        ⟨"m.gguf", 2048, 7 / 10, 2, 512⟩ =
      [StartupAction.ingest "docs", StartupAction.existsCheck chromaFile,
       StartupAction.loadIndex persistDir,
       StartupAction.constructEngine (mkModel ⟨"m.gguf", 2048, 7 / 10, 2, 512⟩)] :=
  (ingestion_unconditional_before_check (fun _ => true) (fun _ => []) "docs"
    ⟨"m.gguf", 2048, 7 / 10, 2, 512⟩).2.2 rfl

/-- Claim C8 counterexample: the engine parameters are not taken from the
configuration section: for the concrete configuration whose context window
size is 4096, the constructed engine has the hardcoded `n_ctx` 2048 while
the spec-side construction (reading the configuration) has 4096. -/
theorem engine_params_ignore_config :
    (mkModel exampleConfig).n_ctx = 2048 ∧
    (mkModel_spec exampleConfig).n_ctx = 4096 :=
  ⟨rfl, rfl⟩

/-- Claim C8 amended: the engine is constructed exactly once during
startup, with hardcoded literal parameters (model path, batch size 512,
context window 2048, thread count 2, temperature 0.7) that do not vary
with the loaded configuration section, fixed for the process lifetime. -/
theorem engine_constructed_once_hardcoded (cfg cfg2 : LlamaConfig)
    (pathExists : String → Bool) (process_pdf : String → List Document)
    (chatbot_dir : String) :
    mkModel cfg = mkModel cfg2 ∧
    (mkModel cfg).model_path =
      "C:/Users/pnhua/Downloads/tinyllama-1.1b-chat-v1.0.Q4_K_S.gguf" ∧
    (mkModel cfg).n_ctx = 2048 ∧
    (mkModel cfg).temperature = 7 / 10 ∧
    (mkModel cfg).n_threads = 2 ∧
    (mkModel cfg).n_batch = 512 ∧
    (startupTrace pathExists process_pdf chatbot_dir cfg).filter
        StartupAction.isConstructEngine =
      [StartupAction.constructEngine (mkModel cfg)] := by
  refine ⟨rfl, rfl, rfl, rfl, rfl, rfl, ?_⟩
  by_cases h : pathExists chromaFile <;>
    simp [startupTrace, h, StartupAction.isConstructEngine]

/-- Claim C5: the retriever searches the index with the fixed configured
`k`, whose value is 3, so a retrieval result never holds more than 3
chunks. -/
theorem retrieval_k_is_three (embed : String → List ℚ)
    (ranked : List ℚ → List Document) (query_text : String) :
    retriever_k = 3 ∧ (retrieve embed ranked query_text).length ≤ 3 := by
  refine ⟨rfl, ?_⟩
  simp [retrieve, search, retriever_k]

end Gaipal
